/-
  Verification of the http-reloaded development file server (src/main.rs)
  against its natural-language specification.

  The embedding models:
  - the request-line path extraction (trim_start_matches / trim_end_matches /
    trim / leading-slash stripping),
  - the filesystem as a function from normalized path components to optional
    byte contents (modelling the OS resolving "." and ".." components),
  - the MIME table `get_mime_type`,
  - the resolution order of `handle_connection` (file, index.html, sentinel,
    404),
  - the response header construction and the bytes written to the stream,
  - the subscription branch as a sequence of fallible stream operations,
  - the broadcast over the subscriber registry (`Vec::retain_mut`),
  - the debounced change watcher (modelled from its specified contract).
-/
import Mathlib

set_option maxRecDepth 100000

namespace HttpReloaded

/-- Bytes of a character list, modelling `str::as_bytes` (all strings in this
development are ASCII, so one char is one byte). -/
def charBytes (s : List Char) : List Nat :=
  s.map Char.toNat

/-- The reserved subscription sentinel path, `VERY_LONG_PATH` in src/main.rs. -/
def VERY_LONG_PATH : String :=
  "very-long-path-name-intentionally-used-to-get-update-notifications-please-do-not-name-your-files-like-this.rs"

/-- Modelled from the spec: the file src/update_notify.html (pulled in by
`include_str!` as `UPDATE_NOTIFY_SCRIPT`) is not present under src/; per the
spec it is a fixed, nonempty reload-capable script snippet that opens a
client-side event stream on the sentinel path and reloads the page on an
update event. Only its fixedness and nonemptiness matter to the claims. -/
def UPDATE_NOTIFY_SCRIPT : String :=
  "<script>const es = new EventSource(\"/very-long-path-name-intentionally-used-to-get-update-notifications-please-do-not-name-your-files-like-this.rs\"); es.onmessage = reload;</script>"

/-- Strip every successive occurrence of `pat` from the front of `s`,
modelling Rust `str::trim_start_matches` (fuelled; fuel `s.length` suffices
since every step removes at least one character). -/
def stripPrefixAll (pat : List Char) : Nat → List Char → List Char
  | 0, s => s
  | fuel + 1, s =>
    if pat.isPrefixOf s && !pat.isEmpty then
      stripPrefixAll pat fuel (s.drop pat.length)
    else s

/-- Strip every successive occurrence of `pat` from the back of `s`,
modelling Rust `str::trim_end_matches`. -/
def stripSuffixAll (pat : List Char) (fuel : Nat) (s : List Char) : List Char :=
  (stripPrefixAll pat.reverse fuel s.reverse).reverse

/-- Trim whitespace from both ends, modelling Rust `str::trim`. -/
def trimChars (s : List Char) : List Char :=
  ((s.dropWhile Char.isWhitespace).reverse.dropWhile Char.isWhitespace).reverse

/-- The path extracted from the request line by `handle_connection`
(src/main.rs lines 73-77): strip repeated leading `GET`, repeated trailing
`HTTP/1.1`, whitespace at both ends, then repeated leading `/`. -/
def extractPath (request : String) : String :=
  let s0 := request.data
  let s1 := stripPrefixAll "GET".data s0.length s0
  let s2 := stripSuffixAll "HTTP/1.1".data s1.length s1
  let s3 := trimChars s2
  String.mk (stripPrefixAll "/".data s3.length s3)

/-- Split a character list at a separator character (structural version of
`String.splitOn` for a single-character separator). -/
def splitCharAux (c : Char) : List Char → List Char → List String
  | [], acc => [String.mk acc.reverse]
  | x :: rest, acc =>
    if x = c then String.mk acc.reverse :: splitCharAux c rest []
    else splitCharAux c rest (x :: acc)

/-- The `/`-separated components of a path string. -/
def splitSlash (p : String) : List String :=
  splitCharAux '/' p.data []

/-- Normalize a list of path components: drop empty and `.` components, let
`..` pop the previous component.  This models the operating system resolving
a path string when the file is read. -/
def normalize (parts : List String) : List String :=
  parts.foldl
    (fun acc part =>
      if part = "" ∨ part = "." then acc
      else if part = ".." then acc.dropLast
      else acc ++ [part])
    []

/-- `PathBuf::join` for a non-absolute right operand (the extracted path never
starts with `/`, all leading slashes having been stripped). -/
def pathJoin (root p : String) : String :=
  root ++ "/" ++ p

/-- The filesystem: a map from normalized path components to the byte contents
of the readable file there (`none` for directories, missing or unreadable
entries, matching `fs::read(..).ok()`). -/
def FileSystem : Type :=
  List String → Option (List Nat)

/-- Reading a path string from the filesystem: the OS resolves the raw string
into normalized components. Models `fs::read(&path.join(file_path)).ok()`. -/
def readFS (fsys : FileSystem) (p : String) : Option (List Nat) :=
  fsys (normalize (splitSlash p))

/-- The final path component (after the last `/`), as used by Rust
`Path::file_name` on the request path. -/
def afterLastSlash (s : List Char) : List Char :=
  (s.reverse.takeWhile (fun c => c ≠ '/')).reverse

/-- Extension of a file name: the part after the last dot, none when there is
no dot or the name starts with its only dot (hidden files), modelling Rust
`Path::extension`. -/
def extOfName (name : List Char) : Option (List Char) :=
  let r := name.reverse
  if r.contains '.' then
    let after := r.takeWhile (fun c => c ≠ '.')
    let before := (r.dropWhile (fun c => c ≠ '.')).drop 1
    if before.isEmpty then none else some after.reverse
  else none

/-- `Path::extension` applied to a path string. -/
def pathExtension (p : String) : Option String :=
  (extOfName (afterLastSlash p.data)).map String.mk

/-- The fixed extension-to-content-type table inside `get_mime_type`
(src/main.rs lines 148-225), verbatim including its typos. -/
def mimeTable (ext : String) : Option String :=
  if ext = "aac" then some "audio/aac"
  else if ext = "abw" then some "application/x-abiword"
  else if ext = "apng" then some "image/apng"
  else if ext = "arc" then some "application/x-freearc"
  else if ext = "avif" then some "image/avif"
  else if ext = "avi" then some "video/x-msvideo"
  else if ext = "azw" then some "application/vnd.amazon.ebook"
  else if ext = "bin" then some "application/octet-stream"
  else if ext = "bmp" then some "image/bmp"
  else if ext = "bz" then some "application/x-bzip"
  else if ext = "bz2" then some "application/x-bzip2"
  else if ext = "cda" then some "application/x-cdf"
  else if ext = "csh" then some "application/x-csh"
  else if ext = "css" then some "text/css"
  else if ext = "csv" then some "text/csv"
  else if ext = "doc" then some "application/msword"
  else if ext = "docx" then some "application/vnd.openxmlformats-officedocument.wordprocessingml.document"
  else if ext = "eot" then some "application/vnd.ms-fontobject"
  else if ext = "epub" then some "application/epub+zip"
  else if ext = "gz" then some "application/gzip"
  else if ext = "gif" then some "application/gif"
  else if ext = "htm" ∨ ext = "html" then some "text/html"
  else if ext = "ico" then some "image/vnd.microsoft.icon"
  else if ext = "ics" then some "text/calendar"
  else if ext = "jar" then some "application/java-archive"
  else if ext = "jpeg" ∨ ext = "jpg" then some "image/jpeg"
  else if ext = "js" then some "text/javascript"
  else if ext = "json" then some "application/json"
  else if ext = "jsonld" then some "application/ld+json"
  else if ext = "mid" ∨ ext = "midi" then some "audio/midi"
  else if ext = "mjs" then some "text/javascript"
  else if ext = "mp3" then some "audio/mpeg"
  else if ext = "mp4" then some "video/mpeg"
  else if ext = "mpeg" then some "video/mpeg"
  else if ext = "mpkg" then some "application/vnd.apple.installer+xml"
  else if ext = "odp" then some "application/vnd.oasis.opendocument.presentation"
  else if ext = "ods" then some "application/vnd.oasis.opendocument.spreadsheet"
  else if ext = "odt" then some "application/vnd.oasis.opendocument.text"
  else if ext = "oga" then some "audio/ogg"
  else if ext = "ogv" then some "video/ogg"
  else if ext = "ogx" then some "application/ogg"
  else if ext = "opus" then some "audio/opus"
  else if ext = "otf" then some "font/otf"
  else if ext = "png" then some "image/png"
  else if ext = "pdf" then some "application/pdf"
  else if ext = "php" then some "application/x-httpd-php"
  else if ext = "ppt" then some "application/vnd.ms-powerpoint"
  else if ext = "pptx" then some "application/vnd/openxmlformats-officedocument.presentationml.presentation"
  else if ext = "rar" then some "application/vnd.rar"
  else if ext = "rtf" then some "application/rtf"
  else if ext = "sh" then some "application/x-sh"
  else if ext = "svg" then some "image/svg+xml"
  else if ext = "tar" then some "application/x-tar"
  else if ext = "tif" ∨ ext = "tiff" then some "image/tiff"
  else if ext = "ts" then some "video/mp2t"
  else if ext = "ttf" then some "font/ttf"
  else if ext = "txt" then some "text/plain"
  else if ext = "vsd" then some "application/vnd.visio"
  else if ext = "wav" then some "audio/wav"
  else if ext = "weba" then some "audio/webm"
  else if ext = "webm" then some "video/webm"
  else if ext = "webp" then some "image/webp"
  else if ext = "woff" then some "font/woff"
  else if ext = "woff2" then some "font/woff2"
  else if ext = "xhtml" then some "application/xhtml+xml"
  else if ext = "xls" then some "application/vnd.ms-exel"
  else if ext = "xlsx" then some "application/vnd.openxmlformats-officedocument.spreadsheetml.sheet"
  else if ext = "xml" then some "application/xml"
  else if ext = "xul" then some "application/vnd.mozilla.xul+xml"
  else if ext = "zip" then some "application/zip"
  else if ext = "3pg" then some "video/3gpp"
  else if ext = "3g2" then some "video/3ggp2"
  else if ext = "7z" then some "application/x-7z-compressed"
  else if ext = "wasm" then some "application/wasm"
  else none

/-- `get_mime_type` (src/main.rs lines 146-226): look the path's extension up
in the fixed table; no extension means no content type. -/
def get_mime_type (p : String) : Option String :=
  match pathExtension p with
  | none => none
  | some ext => mimeTable ext

/-- The body of the generated 404 page (src/main.rs lines 109-113),
containing the requested path verbatim. -/
def notFoundChars (fp : String) : List Char :=
  "<!DOCTYPE html><h1>404: Not found</h1><p>page ".data ++ fp.data
    ++ " not found</p>".data

/-- Outcome of the resolution phase of `handle_connection`: either a normal
response (status line, optional content type, body bytes read or generated)
or the subscription branch. -/
inductive ResolveResult where
  | normal (status : String) (mimeType : Option String) (content : List Nat)
  | subscribe
  deriving DecidableEq, Repr

/-- The resolution order of `handle_connection` (src/main.rs lines 80-117):
(1) `root/path` readable as a file, (2) `root/path/index.html` readable,
(3) the subscription sentinel, (4) the generated 404. -/
def resolve (fsys : FileSystem) (root fp : String) : ResolveResult :=
  match readFS fsys (pathJoin root fp) with
  | some file => .normal "200 OK" (get_mime_type fp) file
  | none =>
    match readFS fsys (pathJoin (pathJoin root fp) "index.html") with
    | some file => .normal "200 OK" (some "text/html") file
    | none =>
      if fp = VERY_LONG_PATH then .subscribe
      else .normal "404 NOT FOUND" (some "text/html")
        (charBytes (notFoundChars fp))

/-- The reload snippet selected at src/main.rs lines 120-124: the script for
`text/html` responses, empty otherwise.  (Only its length is ever used by the
code: the write at line 140 uses the full constant instead.) -/
def snippetFor (mimeType : Option String) : String :=
  if mimeType = some "text/html" then UPDATE_NOTIFY_SCRIPT else ""

/-- The `Content-Length` value computed at src/main.rs line 127:
`content.len() + update_notify.len()`. -/
def contentLengthVal (content : List Nat) (mimeType : Option String) : Nat :=
  content.length + (snippetFor mimeType).data.length

/-- The body bytes actually written after the headers (src/main.rs lines
139-140): the file content followed unconditionally by
`UPDATE_NOTIFY_SCRIPT.as_bytes()`. -/
def bodyBytesWritten (content : List Nat) : List Nat :=
  content ++ charBytes UPDATE_NOTIFY_SCRIPT.data

/-- The header lines of a normal response as constructed by the format string
at src/main.rs lines 128-135: status line, `Content-Length`,
`Cache-Control: no-cache`, and a `Content-Type` line exactly when a MIME type
was resolved.  The flat header string is these lines each terminated by CRLF,
followed by the blank line. -/
def responseHeaderLines (status : String) (len : Nat) (mimeType : Option String) :
    List (List Char) :=
  ("HTTP/1.1 ".data ++ status.data)
    :: ("Content-Length: ".data ++ (toString len).data)
    :: "Cache-Control: no-cache".data
    :: (match mimeType with
        | some m => ["Content-Type: ".data ++ m.data]
        | none => [])

/-- Flatten header lines into the transmitted header text: each line is
CRLF-terminated and a blank line ends the header block. -/
def flattenCRLF (lines : List (List Char)) : List Char :=
  (lines.map (fun l => l ++ "\r\n".data)).flatten ++ "\r\n".data

/-- The complete event-stream response header written in the subscription
branch (src/main.rs lines 94-96), verbatim. -/
def eventStreamHeaderChars : List Char :=
  "HTTP/1.1 200 OK\r\nContent-Type: text/event-stream\r\nCache-Control: no-cache\r\n\r\n".data

/-- The header lines of the event-stream response (the flat header at
src/main.rs line 95 is exactly their CRLF flattening). -/
def eventStreamHeaderLines : List (List Char) :=
  ["HTTP/1.1 200 OK".data,
   "Content-Type: text/event-stream".data,
   "Cache-Control: no-cache".data]

/-- The initial push frame written on subscription (src/main.rs line 97). -/
def initialFrameChars : List Char :=
  "data: initial\n\n".data

/-- The push frame broadcast on a debounced change (src/main.rs line 30). -/
def updateFrameChars : List Char :=
  "data: update\n\n".data

/-- An I/O operation performed on the client connection by the subscription
branch. -/
inductive SubOp where
  | nodelay
  | write (data : List Char)
  | flush
  deriving DecidableEq, Repr

/-- The failure behaviour of the client connection: whether `set_nodelay`,
`write_all` of a given payload, and `flush` succeed. -/
structure ConnBehavior where
  nodelayOk : Bool
  writeOk : List Char → Bool
  flushOk : Bool

/-- Result of running the subscription branch: `Ok`/`Err` as returned by
`handle_connection`, the registry afterwards, and the operations attempted on
the connection, in order. -/
structure SubOutcome where
  result : Except Unit Unit
  registry : List Nat
  ops : List SubOp
  deriving Repr

/-- The subscription branch of `handle_connection` (src/main.rs lines 89-104)
for connection `conn`: `set_nodelay(true)?`, write the event-stream header
`?`, write the initial frame `?`, `flush()?`, then push the connection into
the registry and return `Ok(())`.  A failing operation propagates the error
and skips everything after it (so the registry is untouched on failure). -/
def subscribeBranch (beh : ConnBehavior) (registry : List Nat) (conn : Nat) :
    SubOutcome :=
  if !beh.nodelayOk then
    ⟨.error (), registry, [.nodelay]⟩
  else if !beh.writeOk eventStreamHeaderChars then
    ⟨.error (), registry, [.nodelay, .write eventStreamHeaderChars]⟩
  else if !beh.writeOk initialFrameChars then
    ⟨.error (), registry,
      [.nodelay, .write eventStreamHeaderChars, .write initialFrameChars]⟩
  else if !beh.flushOk then
    ⟨.error (), registry,
      [.nodelay, .write eventStreamHeaderChars, .write initialFrameChars, .flush]⟩
  else
    ⟨.ok (), registry ++ [conn],
      [.nodelay, .write eventStreamHeaderChars, .write initialFrameChars, .flush]⟩

/-- One broadcast over the subscriber registry (src/main.rs lines 28-34):
`retain_mut` keeps exactly the connections for which writing the update frame
and then flushing both succeed, in order, and drops the others. -/
def broadcast (writeOk flushOk : Nat → Bool) : List Nat → List Nat
  | [] => []
  | s :: rest =>
    if writeOk s && flushOk s then s :: broadcast writeOk flushOk rest
    else broadcast writeOk flushOk rest

/-- Modelled from the spec: the debounce logic lives in the
`notify_debouncer_mini` dependency, not under src/ (src/main.rs only supplies
the 500 ms window at line 23).  Per the spec, after the first event in a
quiet period the watcher waits for `window` ms of silence, later events
within the wait resetting it, then fires once.  Given the sorted timestamps
of the filesystem events, the number of notifications fired is one per
maximal group of events whose consecutive gaps are below the window. -/
def countFires (window : Nat) : List Nat → Nat
  | [] => 0
  | [_] => 1
  | a :: b :: rest =>
    (if window ≤ b - a then 1 else 0) + countFires window (b :: rest)

/-- The debounce window passed to `new_debouncer` (src/main.rs line 23). -/
def DEBOUNCE_MS : Nat := 500

/-- Number of update frames successfully delivered to connection `c` over
`fires` successive debounced notifications starting from registry `reg`: each
notification broadcasts to the registry it finds and prunes failures. -/
def deliveredCount (writeOk flushOk : Nat → Bool) (c : Nat) :
    Nat → List Nat → Nat
  | 0, _ => 0
  | fires + 1, reg =>
    (if c ∈ reg ∧ writeOk c ∧ flushOk c then 1 else 0)
      + deliveredCount writeOk flushOk c fires (broadcast writeOk flushOk reg)

/-! ### Helper lemmas -/

/-- A list whose `i`-th element differs from the `i`-th element of `a` is not
a prefix of `a ++ t`, whatever `t` is. -/
theorem not_prefix_append_of_getElem_ne {p a : List Char} (t : List Char) {i : Nat}
    {x y : Char} (hx : p[i]? = some x) (hy : a[i]? = some y) (hxy : x ≠ y) :
    ¬ p <+: (a ++ t) := by
  rintro ⟨u, hu⟩
  have hip : i < p.length := (List.getElem?_eq_some.mp hx).1
  have hia : i < a.length := (List.getElem?_eq_some.mp hy).1
  have h1 : (p ++ u)[i]? = some x := by rw [List.getElem?_append_left hip]; exact hx
  have h2 : (a ++ t)[i]? = some y := by rw [List.getElem?_append_left hia]; exact hy
  rw [hu, h2] at h1
  exact hxy (Option.some.inj h1).symm

/-- The status line written by `resolve` is always `200 OK` or
`404 NOT FOUND`. -/
theorem resolve_status (fsys : FileSystem) (root fp : String)
    {status : String} {mimeType : Option String} {content : List Nat}
    (h : resolve fsys root fp = .normal status mimeType content) :
    status = "200 OK" ∨ status = "404 NOT FOUND" := by
  unfold resolve at h
  rcases hr : readFS fsys (pathJoin root fp) with _ | file
  · rw [hr] at h
    rcases hi : readFS fsys (pathJoin (pathJoin root fp) "index.html") with _ | file2
    · rw [hi] at h
      by_cases hs : fp = VERY_LONG_PATH
      · simp [hs] at h
      · simp [hs] at h
        exact Or.inr h.1.symm
    · rw [hi] at h
      simp at h
      exact Or.inl h.1.symm
  · rw [hr] at h
    simp at h
    exact Or.inl h.1.symm

/-- When no MIME type was resolved, no header line starts with
`Content-Type: `. -/
theorem no_content_type_line (status : String)
    (hs : status = "200 OK" ∨ status = "404 NOT FOUND") (len : Nat) :
    ∀ line ∈ responseHeaderLines status len none,
      ¬ ("Content-Type: ".data <+: line) := by
  intro line hline
  simp only [responseHeaderLines, List.mem_cons, List.not_mem_nil, or_false] at hline
  rcases hline with h | h | h
  · subst h
    rcases hs with hs | hs <;> subst hs <;> decide
  · subst h
    exact not_prefix_append_of_getElem_ne _ (i := 8) (x := 'T') (y := 'L')
      (by decide) (by decide) (by decide)
  · subst h
    decide

/-! ### C2: resolution order -/

/-- A demonstration filesystem: root `site` contains the file `a.css` with
byte content `[104]` and a directory `d` holding `index.html` with byte
content `[60]`; nothing else exists. -/
def fsDemo : FileSystem := fun p =>
  if p = ["site", "a.css"] then some [104]
  else if p = ["site", "d", "index.html"] then some [60]
  else none

/-- C2: `handle_connection` resolves the extracted path with first match
winning in this order: (1) `root/path` readable as a file gives 200 with the
MIME resolver's content type, (2) `root/path/index.html` readable gives 200
with content type `text/html`, (3) the sentinel path takes the subscription
branch with no normal response, (4) otherwise a 404 response. -/
theorem resolution_order (fsys : FileSystem) (root fp : String) :
    (∀ c, readFS fsys (pathJoin root fp) = some c →
      resolve fsys root fp = .normal "200 OK" (get_mime_type fp) c) ∧
    (readFS fsys (pathJoin root fp) = none →
      ∀ c, readFS fsys (pathJoin (pathJoin root fp) "index.html") = some c →
      resolve fsys root fp = .normal "200 OK" (some "text/html") c) ∧
    (readFS fsys (pathJoin root fp) = none →
      readFS fsys (pathJoin (pathJoin root fp) "index.html") = none →
      fp = VERY_LONG_PATH →
      resolve fsys root fp = .subscribe) ∧
    (readFS fsys (pathJoin root fp) = none →
      readFS fsys (pathJoin (pathJoin root fp) "index.html") = none →
      fp ≠ VERY_LONG_PATH →
      resolve fsys root fp =
        .normal "404 NOT FOUND" (some "text/html") (charBytes (notFoundChars fp))) := by
  refine ⟨?_, ?_, ?_, ?_⟩ <;> intros <;> simp_all [resolve]

/-- Witness for C2: all four resolution cases realised on `fsDemo`. -/
theorem resolution_order_witness :
    resolve fsDemo "site" "a.css" = .normal "200 OK" (some "text/css") [104] ∧
    resolve fsDemo "site" "d" = .normal "200 OK" (some "text/html") [60] ∧
    resolve fsDemo "site" VERY_LONG_PATH = .subscribe ∧
    resolve fsDemo "site" "nope" =
      .normal "404 NOT FOUND" (some "text/html") (charBytes (notFoundChars "nope")) :=
  ⟨(resolution_order fsDemo "site" "a.css").1 [104] (by decide),
   ((resolution_order fsDemo "site" "d").2.1 (by decide) [60] (by decide)),
   ((resolution_order fsDemo "site" VERY_LONG_PATH).2.2.1 (by decide) (by decide) rfl),
   ((resolution_order fsDemo "site" "nope").2.2.2 (by decide) (by decide) (by decide))⟩

/-! ### C1: non-HTML bodies and Content-Length -/

/-- A filesystem where root `site` contains only the CSS file `a.css` with
the single byte 104. -/
def fsCss : FileSystem := fun p =>
  if p = ["site", "a.css"] then some [104] else none

/-- C1 fails on the code: a GET of the CSS file `a.css` (content type
`text/css`, not `text/html`) resolves to a 200 response whose selected
snippet is empty, yet the bytes written after the headers are the file
content followed by the full reload script (src/main.rs line 140 writes
`UPDATE_NOTIFY_SCRIPT` unconditionally instead of the conditionally chosen
`update_notify`), so the written body differs from the file contents and its
length differs from the Content-Length value computed at line 127. -/
theorem nonhtml_body_has_snippet :
    resolve fsCss "site" "a.css" = .normal "200 OK" (some "text/css") [104] ∧
    snippetFor (some "text/css") = "" ∧
    contentLengthVal [104] (some "text/css") = 1 ∧
    bodyBytesWritten [104] ≠ [104] ∧
    (bodyBytesWritten [104]).length ≠ contentLengthVal [104] (some "text/css") := by
  refine ⟨by decide, by decide, by decide, by decide, by decide⟩

/-! ### C5: response headers -/

/-- C5 fails on the code as stated for "every response": the event-stream
response written in the subscription branch (src/main.rs line 95) carries
`Content-Type` and `Cache-Control: no-cache` but no `Content-Length` header
at all. -/
theorem eventstream_response_lacks_content_length :
    flattenCRLF eventStreamHeaderLines = eventStreamHeaderChars ∧
    ¬ ("Content-Length".data <:+: eventStreamHeaderChars) ∧
    "Cache-Control: no-cache".data ∈ eventStreamHeaderLines := by
  refine ⟨by decide, by decide, by decide⟩

/-- C5 (amended): every NORMAL response's headers include a Content-Length
header and a `Cache-Control: no-cache` header, and a Content-Type header is
present if and only if a MIME type was resolved; the subscription branch's
event-stream response instead omits Content-Length. -/
theorem normal_response_headers (fsys : FileSystem) (root fp : String)
    {status : String} {mimeType : Option String} {content : List Nat}
    (h : resolve fsys root fp = .normal status mimeType content) :
    (∃ line ∈ responseHeaderLines status (contentLengthVal content mimeType) mimeType,
        "Content-Length: ".data <+: line) ∧
    "Cache-Control: no-cache".data
      ∈ responseHeaderLines status (contentLengthVal content mimeType) mimeType ∧
    ((∃ line ∈ responseHeaderLines status (contentLengthVal content mimeType) mimeType,
        "Content-Type: ".data <+: line) ↔ mimeType.isSome) := by
  refine ⟨?_, ?_, ?_⟩
  · exact ⟨"Content-Length: ".data ++ (toString (contentLengthVal content mimeType)).data,
      by simp [responseHeaderLines], List.prefix_append _ _⟩
  · simp [responseHeaderLines]
  · constructor
    · rintro ⟨line, hline, hpre⟩
      cases mimeType with
      | some m => rfl
      | none =>
        exact absurd hpre
          (no_content_type_line status (resolve_status fsys root fp h) _ line hline)
    · intro hsome
      cases mimeType with
      | none => simp at hsome
      | some m =>
        exact ⟨"Content-Type: ".data ++ m.data,
          by simp [responseHeaderLines], List.prefix_append _ _⟩

/-- Witness for the amended C5 at a concrete resolved response (the CSS file
of `fsCss`, MIME type `text/css`) and at a resolved 404 (no Content-Type
constraint violated; MIME type `text/html`). -/
theorem normal_response_headers_witness :
    ((∃ line ∈ responseHeaderLines "200 OK" (contentLengthVal [104] (some "text/css"))
          (some "text/css"), "Content-Length: ".data <+: line) ∧
      "Cache-Control: no-cache".data
        ∈ responseHeaderLines "200 OK" (contentLengthVal [104] (some "text/css"))
            (some "text/css") ∧
      ((∃ line ∈ responseHeaderLines "200 OK" (contentLengthVal [104] (some "text/css"))
          (some "text/css"), "Content-Type: ".data <+: line) ↔
        (some "text/css").isSome)) :=
  normal_response_headers fsCss "site" "a.css" (by decide)

/-! ### C6: the 404 page -/

/-- The empty filesystem: nothing is readable. -/
def fsEmpty : FileSystem := fun _ => none

/-- C6: when neither `root/p` nor `root/p/index.html` is readable and `p` is
not the sentinel, the handler produces (rather than erroring out) a 404
response with content type `text/html` whose body contains the literal text
of `p`. -/
theorem notfound_response (fsys : FileSystem) (root fp : String)
    (h1 : readFS fsys (pathJoin root fp) = none)
    (h2 : readFS fsys (pathJoin (pathJoin root fp) "index.html") = none)
    (h3 : fp ≠ VERY_LONG_PATH) :
    resolve fsys root fp =
      .normal "404 NOT FOUND" (some "text/html") (charBytes (notFoundChars fp)) ∧
    fp.data <:+: notFoundChars fp := by
  constructor
  · simp [resolve, h1, h2, h3]
  · exact ⟨"<!DOCTYPE html><h1>404: Not found</h1><p>page ".data,
      " not found</p>".data, by simp [notFoundChars]⟩

/-- Witness for C6: the path `nope` on the empty filesystem. -/
theorem notfound_response_witness :
    resolve fsEmpty "site" "nope" =
      .normal "404 NOT FOUND" (some "text/html") (charBytes (notFoundChars "nope")) ∧
    "nope".data <:+: notFoundChars "nope" :=
  notfound_response fsEmpty "site" "nope" (by decide) (by decide) (by decide)

/-! ### C3: the subscription branch -/

/-- A connection on which every operation succeeds. -/
def behAllOk : ConnBehavior :=
  ⟨true, fun _ => true, true⟩

/-- C3: a request whose extracted path is the sentinel and that reaches the
sentinel case never gets a normal file/404 response; the handler disables
delay, writes the event-stream header (content type `text/event-stream`,
`Cache-Control: no-cache`), writes the immediate `data: initial\n\n` frame,
flushes, pushes the connection into the registry, and performs exactly those
operations and no others before returning `Ok`. -/
theorem sentinel_subscription (fsys : FileSystem) (root : String)
    (h1 : readFS fsys (pathJoin root VERY_LONG_PATH) = none)
    (h2 : readFS fsys (pathJoin (pathJoin root VERY_LONG_PATH) "index.html") = none)
    (beh : ConnBehavior) (reg : List Nat) (conn : Nat)
    (hn : beh.nodelayOk = true) (hw : ∀ d, beh.writeOk d = true)
    (hf : beh.flushOk = true) :
    resolve fsys root VERY_LONG_PATH = .subscribe ∧
    subscribeBranch beh reg conn =
      ⟨.ok (), reg ++ [conn],
        [.nodelay, .write eventStreamHeaderChars, .write initialFrameChars, .flush]⟩ ∧
    flattenCRLF eventStreamHeaderLines = eventStreamHeaderChars ∧
    "Content-Type: text/event-stream".data ∈ eventStreamHeaderLines ∧
    "Cache-Control: no-cache".data ∈ eventStreamHeaderLines ∧
    initialFrameChars = "data: initial\n\n".data := by
  refine ⟨by simp [resolve, h1, h2], ?_, by decide, by decide, by decide, rfl⟩
  simp [subscribeBranch, hn, hw, hf]

/-- Witness for C3: the empty filesystem, a fully healthy connection. -/
theorem sentinel_subscription_witness :
    resolve fsEmpty "site" VERY_LONG_PATH = .subscribe ∧
    subscribeBranch behAllOk [3] 7 =
      ⟨.ok (), [3] ++ [7],
        [.nodelay, .write eventStreamHeaderChars, .write initialFrameChars, .flush]⟩ ∧
    flattenCRLF eventStreamHeaderLines = eventStreamHeaderChars ∧
    "Content-Type: text/event-stream".data ∈ eventStreamHeaderLines ∧
    "Cache-Control: no-cache".data ∈ eventStreamHeaderLines ∧
    initialFrameChars = "data: initial\n\n".data :=
  sentinel_subscription fsEmpty "site" (by decide) (by decide)
    behAllOk [3] 7 rfl (fun _ => rfl) rfl

/-! ### C9: insertion only after full success -/

/-- C9: the subscription branch inserts the connection into the registry only
when disabling delay, both writes and the flush all succeeded; on any failure
it returns an error and leaves the registry untouched, so every registry
entry successfully received the initial frame. -/
theorem subscribe_insert_guarded (beh : ConnBehavior) (reg : List Nat) (conn : Nat) :
    ((subscribeBranch beh reg conn).result = .ok () ↔
      beh.nodelayOk = true ∧ beh.writeOk eventStreamHeaderChars = true ∧
      beh.writeOk initialFrameChars = true ∧ beh.flushOk = true) ∧
    ((subscribeBranch beh reg conn).result = .ok () →
      (subscribeBranch beh reg conn).registry = reg ++ [conn] ∧
      SubOp.write initialFrameChars ∈ (subscribeBranch beh reg conn).ops) ∧
    ((subscribeBranch beh reg conn).result = .error () →
      (subscribeBranch beh reg conn).registry = reg) := by
  unfold subscribeBranch
  rcases hn : beh.nodelayOk <;>
    rcases hw1 : beh.writeOk eventStreamHeaderChars <;>
    rcases hw2 : beh.writeOk initialFrameChars <;>
    rcases hf : beh.flushOk <;>
    simp

/-- Witness for C9: a connection whose flush fails is not inserted; note the
implications are discharged on a healthy connection. -/
theorem subscribe_insert_guarded_witness :
    (subscribeBranch behAllOk [] 5).result = .ok () ∧
    (subscribeBranch behAllOk [] 5).registry = [] ++ [5] ∧
    SubOp.write initialFrameChars ∈ (subscribeBranch behAllOk [] 5).ops := by
  have h := subscribe_insert_guarded behAllOk [] 5
  have hok : (subscribeBranch behAllOk [] 5).result = .ok () :=
    h.1.mpr ⟨rfl, rfl, rfl, rfl⟩
  exact ⟨hok, (h.2.1 hok).1, (h.2.1 hok).2⟩

/-! ### C4: broadcast pruning -/

/-- C4: after a broadcast, the registry holds exactly the previously
registered connections whose write and flush both succeeded — every failed
connection is removed, every successful one remains, order preserved by
`retain_mut` — and a connection that failed is absent from the post-broadcast
registry, hence never targeted by any later broadcast. -/
theorem broadcast_prunes_failures (writeOk flushOk : Nat → Bool)
    (reg : List Nat) (c : Nat) :
    (c ∈ broadcast writeOk flushOk reg ↔
      c ∈ reg ∧ writeOk c = true ∧ flushOk c = true) ∧
    ((writeOk c = false ∨ flushOk c = false) →
      c ∉ broadcast writeOk flushOk reg ∧
      c ∉ broadcast writeOk flushOk (broadcast writeOk flushOk reg)) := by
  have mem : ∀ l : List Nat, c ∈ broadcast writeOk flushOk l ↔
      c ∈ l ∧ writeOk c = true ∧ flushOk c = true := by
    intro l
    induction l with
    | nil => simp [broadcast]
    | cons s rest ih =>
      simp only [broadcast]
      split
      next hs =>
        obtain ⟨hw, hf⟩ : writeOk s = true ∧ flushOk s = true := by simpa using hs
        simp only [List.mem_cons, ih]
        constructor
        · rintro (rfl | ⟨h, hok⟩)
          · exact ⟨Or.inl rfl, hw, hf⟩
          · exact ⟨Or.inr h, hok⟩
        · rintro ⟨rfl | h, hok⟩
          · exact Or.inl rfl
          · exact Or.inr ⟨h, hok⟩
      next hs =>
        have hns : ¬(writeOk s = true ∧ flushOk s = true) := by simpa using hs
        simp only [ih, List.mem_cons]
        constructor
        · rintro ⟨h, hok⟩
          exact ⟨Or.inr h, hok⟩
        · rintro ⟨rfl | h, hok⟩
          · exact absurd hok hns
          · exact ⟨h, hok⟩
  refine ⟨mem reg, ?_⟩
  intro hfail
  constructor <;>
  · rw [mem]
    rintro ⟨-, hw, hf⟩
    rcases hfail with hfail | hfail <;> simp_all

/-- Witness for C4: connection 2 fails its write and is pruned by the
broadcast over `[1, 2, 3]`; connections 1 and 3 survive. -/
theorem broadcast_prunes_failures_witness :
    (2 ∈ broadcast (fun c => c ≠ 2) (fun _ => true) [1, 2, 3] ↔
      2 ∈ [1, 2, 3] ∧ (fun c : Nat => decide (c ≠ 2)) 2 = true ∧
        (fun _ : Nat => true) 2 = true) ∧
    2 ∉ broadcast (fun c => c ≠ 2) (fun _ => true) [1, 2, 3] ∧
    2 ∉ broadcast (fun c => c ≠ 2) (fun _ => true)
        (broadcast (fun c => c ≠ 2) (fun _ => true) [1, 2, 3]) := by
  have h := broadcast_prunes_failures (fun c => decide (c ≠ 2)) (fun _ => true) [1, 2, 3] 2
  exact ⟨h.1, (h.2 (Or.inl (by decide))).1, (h.2 (Or.inl (by decide))).2⟩

/-! ### C7: debounce coalescing -/

/-- A burst: consecutive event timestamps less than the window apart. -/
def IsBurst (window : Nat) (events : List Nat) : Prop :=
  List.Chain' (fun a b => b - a < window) events

/-- A burst fires exactly one notification. -/
theorem countFires_burst (window : Nat) :
    ∀ events : List Nat, events ≠ [] → IsBurst window events →
      countFires window events = 1
  | [], h, _ => absurd rfl h
  | [_], _, _ => rfl
  | a :: b :: rest, _, hburst => by
    obtain ⟨hab, htail⟩ := List.chain'_cons.mp hburst
    have ih := countFires_burst window (b :: rest) (by simp) htail
    have hno : ¬ window ≤ b - a := by omega
    simp only [countFires, ih, if_neg hno]

/-- C7: a burst of filesystem events (consecutive gaps under the 500 ms
window) followed by quiet fires exactly one notification, and each subscriber
registered before the burst whose write and flush succeed is delivered
exactly one `data: update\n\n` frame over those notifications; in particular
two writes less than 500 ms apart yield one frame, not two. -/
theorem debounce_coalesces (events : List Nat) (hne : events ≠ [])
    (hburst : IsBurst DEBOUNCE_MS events)
    (writeOk flushOk : Nat → Bool) (reg : List Nat) (c : Nat)
    (hc : c ∈ reg) (hw : writeOk c = true) (hf : flushOk c = true) :
    countFires DEBOUNCE_MS events = 1 ∧
    deliveredCount writeOk flushOk c (countFires DEBOUNCE_MS events) reg = 1 ∧
    (∀ t1 t2 : Nat, t2 - t1 < DEBOUNCE_MS → countFires DEBOUNCE_MS [t1, t2] = 1) := by
  have h1 := countFires_burst DEBOUNCE_MS events hne hburst
  refine ⟨h1, ?_, ?_⟩
  · rw [h1]
    simp [deliveredCount, hc, hw, hf]
  · intro t1 t2 h12
    exact countFires_burst DEBOUNCE_MS [t1, t2] (by simp)
      (List.chain'_cons.mpr ⟨h12, List.chain'_singleton _⟩)

/-- Witness for C7: three events 0, 100, 499 ms with subscriber 7
registered; exactly one frame is delivered. -/
theorem debounce_coalesces_witness :
    countFires DEBOUNCE_MS [0, 100, 499] = 1 ∧
    deliveredCount (fun _ => true) (fun _ => true) 7
      (countFires DEBOUNCE_MS [0, 100, 499]) [7] = 1 ∧
    (∀ t1 t2 : Nat, t2 - t1 < DEBOUNCE_MS → countFires DEBOUNCE_MS [t1, t2] = 1) :=
  debounce_coalesces [0, 100, 499] (by decide)
    (List.chain'_cons.mpr ⟨by decide,
      List.chain'_cons.mpr ⟨by decide, List.chain'_singleton _⟩⟩)
    (fun _ => true) (fun _ => true) [7] 7 (by decide) rfl rfl

/-! ### C8: MIME table round-trip -/

/-- C8: a GET of an existing file whose extension is in the MIME table
carries a `Content-Type` header line matching the table entry; when the
extension is absent from the table or the file has no extension, the
response's MIME type is `none` and no header line starts with
`Content-Type: `. -/
theorem mime_table_roundtrip (fsys : FileSystem) (root fp : String)
    (content : List Nat) (h : readFS fsys (pathJoin root fp) = some content) :
    (∀ e m, pathExtension fp = some e → mimeTable e = some m →
      resolve fsys root fp = .normal "200 OK" (some m) content ∧
      ("Content-Type: ".data ++ m.data)
        ∈ responseHeaderLines "200 OK" (contentLengthVal content (some m)) (some m)) ∧
    ((pathExtension fp = none ∨ ∃ e, pathExtension fp = some e ∧ mimeTable e = none) →
      resolve fsys root fp = .normal "200 OK" none content ∧
      ∀ line ∈ responseHeaderLines "200 OK" (contentLengthVal content none) none,
        ¬ ("Content-Type: ".data <+: line)) := by
  constructor
  · intro e m he hm
    have hmime : get_mime_type fp = some m := by
      simp [get_mime_type, he, hm]
    refine ⟨?_, by simp [responseHeaderLines]⟩
    simp [resolve, h, hmime]
  · intro hnone
    have hmime : get_mime_type fp = none := by
      rcases hnone with hn | ⟨e, he, hm⟩ <;> simp [get_mime_type, *]
    exact ⟨by simp [resolve, h, hmime],
      no_content_type_line "200 OK" (Or.inl rfl) _⟩

/-- A filesystem holding a CSS file and an extensionless file under root
`site`. -/
def fsMime : FileSystem := fun p =>
  if p = ["site", "a.css"] then some [104]
  else if p = ["site", "noext"] then some [1] else none

/-- Witness for C8: the table entry for `css` round-trips on `a.css`; the
extensionless file `noext` gets no Content-Type line. -/
theorem mime_table_roundtrip_witness :
    (resolve fsMime "site" "a.css" = .normal "200 OK" (some "text/css") [104] ∧
      ("Content-Type: ".data ++ "text/css".data)
        ∈ responseHeaderLines "200 OK" (contentLengthVal [104] (some "text/css"))
            (some "text/css")) ∧
    (resolve fsMime "site" "noext" = .normal "200 OK" none [1] ∧
      ∀ line ∈ responseHeaderLines "200 OK" (contentLengthVal [1] none) none,
        ¬ ("Content-Type: ".data <+: line)) :=
  ⟨(mime_table_roundtrip fsMime "site" "a.css" [104] (by decide)).1
      "css" "text/css" (by decide) (by decide),
   (mime_table_roundtrip fsMime "site" "noext" [1] (by decide)).2
      (Or.inl (by decide))⟩

/-! ### C10: path traversal -/

/-- A filesystem where the only readable file lies at the absolute component
path `secret` — outside the served root `site`. -/
def fsSecret : FileSystem := fun p =>
  if p = ["secret"] then some [42] else none

/-- C10: the extracted path is joined to the root with no sanitization, so
there is a request whose extracted path contains `..` and whose file read
resolves (once the OS normalizes the joined path) to a file outside the
served root tree: the root's components are not a prefix of the resolved
components, yet the handler serves the file with 200. -/
theorem path_traversal_exists :
    ∃ req : String,
      "..".data <:+: (extractPath req).data ∧
      normalize (splitSlash (pathJoin "site" (extractPath req))) = ["secret"] ∧
      ¬ (normalize (splitSlash "site") <+:
          normalize (splitSlash (pathJoin "site" (extractPath req)))) ∧
      resolve fsSecret "site" (extractPath req) = .normal "200 OK" none [42] := by
  refine ⟨"GET /../secret HTTP/1.1", ?_, by decide, by decide, by decide⟩
  exact ⟨[], "/secret".data, by decide⟩

end HttpReloaded
